import Mathlib

/-!
# Verification of `seafog/goos_sst.py`

A shallow embedding of the module `seafog.goos_sst` (NearGOOS sea-surface
temperature download and parsing).  Python strings are modelled as `String`
or as their character lists (`PyStr`), machine floats as exact rationals
(`ℚ`, with `none : Option ℚ` standing for not-a-number), fallible code as
`Except`/`Option`, and the filesystem / downloader side effects of
`goos_sst_find_data` as explicit state passing.
-/

set_option maxRecDepth 40000

/-- A Python string viewed as its list of characters. -/
abbrev PyStr := List Char

/-- Python exception classes raised by the embedded code or by the library
calls it makes (`ValueError`, `ConnectionError`, `IndexError`). -/
inductive PyError where
  | valueError
  | connectionError
  | indexError
deriving DecidableEq

/-- Characters treated as whitespace by Python's `int`/`str.strip`
(the ASCII whitespace set). -/
def pySpace (c : Char) : Bool :=
  c = ' ' ∨ c = '\t' ∨ c = '\n' ∨ c = '\r' ∨ c = '\x0b' ∨ c = '\x0c'

/-- Decimal digit value of a character (`'0'` is code point 48). -/
def pyDigit? (c : Char) : Option Nat :=
  if 48 ≤ c.toNat ∧ c.toNat ≤ 57 then some (c.toNat - 48) else none

/-- Value of a nonempty all-digit character run; `none` mirrors `ValueError`. -/
def pyDigitsVal : List Char → Option Nat
  | [] => none
  | c :: cs => (c :: cs).foldlM (fun acc ch => (pyDigit? ch).map fun d => acc * 10 + d) 0

/-- Whitespace stripping as Python's `int` applies it to its argument. -/
def pyStrip (l : PyStr) : PyStr :=
  ((l.dropWhile pySpace).reverse.dropWhile pySpace).reverse

/-- Python `int(s)`: optional surrounding whitespace, optional sign, decimal
digits; `none` mirrors `ValueError`. -/
def pyInt (l : PyStr) : Option Int :=
  let t := pyStrip l
  if t.head? = some '-' then (pyDigitsVal t.tail).map fun n => -(n : Int)
  else if t.head? = some '+' then (pyDigitsVal t.tail).map fun n => (n : Int)
  else (pyDigitsVal t).map fun n => (n : Int)

/-- `[int(line[i:i+3]) for i in range(0, len(line), 3)]` from
`goos_sst_parser`: consecutive 3-character slices.  Python slices clamp at
the end of the string, so a trailing slice may hold only 1 or 2 characters
and is still handed to `int`. -/
def pyIntFields : PyStr → List (Option Int)
  | [] => []
  | [a] => [pyInt [a]]
  | [a, b] => [pyInt [a, b]]
  | a :: b :: c :: rest => pyInt [a, b, c] :: pyIntFields rest

/-- Evaluate a list of fallible results in order, failing at the first
failure (the behavior of a Python comprehension whose body may raise). -/
def optSequence {α : Type} : List (Option α) → Option (List α)
  | [] => some []
  | a :: t => do
    let x ← a
    let rest ← optSequence t
    pure (x :: rest)

/-- One data line of `goos_sst_parser`: `line = line[:-1]` (unconditionally
drop the final character) followed by the slice comprehension; `none` when
some `int` call raises `ValueError`. -/
def decodeLine (line : PyStr) : Option (List Int) :=
  optSequence (pyIntFields line.dropLast)

example : decodeLine "1234\n".toList = some [123, 4] := by decide

example : decodeLine "012345\n".toList = some [12, 345] := by decide

example : pyInt " 42".toList = some 42 := by decide

/-- `np.asarray` succeeds in building a 2-D integer array exactly when all
rows have the same length (modern numpy raises `ValueError` on ragged
nested lists). -/
def rectangular : List (List Int) → Bool
  | [] => true
  | r :: rs => rs.all fun x => x.length = r.length

/-- `data.astype(float) / 10` followed by `data[data > 80] = np.nan`,
applied to one raw field.  Floats are modelled as exact rationals and
not-a-number as `none`. -/
def scaleMask (v : Int) : Option ℚ :=
  if (80 : ℚ) < (v : ℚ) / 10 then none else some ((v : ℚ) / 10)

/-- Scaling, sentinel masking, and the `data[::-1, :]` row flip of
`goos_sst_parser`, on the decoded integer rows. -/
def gridTransform (rows : List (List Int)) : List (List (Option ℚ)) :=
  (rows.map fun r => r.map scaleMask).reverse

/-- `np.linspace(a, b, n)`: `n` evenly spaced samples from `a` to `b`,
endpoint included, modelled over `ℚ`. -/
def np_linspace (a b : ℚ) (n : Nat) : List ℚ :=
  (List.range n).map fun i : Nat => a + (b - a) * (i : ℚ) / ((n : ℚ) - 1)

/-- The `xarray.DataArray` produced by `goos_sst_parser`: a 2-D value grid
(`none` = not-a-number) plus its two coordinate axes and attributes. -/
structure DataArray where
  name : String
  data : List (List (Option ℚ))
  dims : List String
  latitude : List ℚ
  longitude : List ℚ
  units : String
deriving DecidableEq

/-- `xarray.DataArray(...)` construction: xarray raises `ValueError`
("conflicting sizes for dimension") when a coordinate's length does not
match the corresponding dimension size of the data. -/
def DataArray.make (name : String) (data : List (List (Option ℚ)))
    (latitude longitude : List ℚ) (units : String) : Except PyError DataArray :=
  if data.length = latitude.length ∧ data.all (fun row => row.length = longitude.length) then
    Except.ok ⟨name, data, ["latitude", "longitude"], latitude, longitude, units⟩
  else
    Except.error PyError.valueError

/-- `inputs = inputs[1:]` (discard the date header line) followed by the
per-line decoding loop of `goos_sst_parser`. -/
def decodeFile (fileLines : List PyStr) : Option (List (List Int)) :=
  optSequence ((fileLines.drop 1).map decodeLine)

/-- The per-resolution coordinate axes generated by `goos_sst_parser`
(`none` mirrors the `ValueError` raised for an unknown resolution tag). -/
def axesFor (resolution : String) : Option (List ℚ × List ℚ) :=
  if resolution = "low" then
    some (np_linspace (-89.875) 89.875 720, np_linspace 0.125 359.875 1440)
  else if resolution = "high" then
    some (np_linspace 0.05 59.95 600, np_linspace 100.05 179.95 800)
  else none

/-- `goos_sst_parser(sst_filename, resolution)`, with the file's contents
(`f.readlines()`, line terminators included) passed directly.  Error order
follows the source: `int` raises `ValueError` during decoding, `np.asarray`
raises `ValueError` on ragged rows, the row flip `data[::-1, :]` raises
`IndexError` when the array is 1-D (empty data), the resolution branch
raises `ValueError` on an unknown tag, and the `DataArray` constructor
raises `ValueError` on a shape/coordinate mismatch. -/
def goos_sst_parse (fileLines : List PyStr) (resolution : String) :
    Except PyError DataArray :=
  match decodeFile fileLines with
  | none => Except.error PyError.valueError
  | some rows =>
    if rectangular rows = false then Except.error PyError.valueError
    else if rows.isEmpty then Except.error PyError.indexError
    else
      match axesFor resolution with
      | none => Except.error PyError.valueError
      | some (latitude, longitude) =>
        DataArray.make "sst" (gridTransform rows) latitude longitude "degree"

deriving instance DecidableEq for Except

example : scaleMask 999 = none := by norm_num [scaleMask]

example : scaleMask 123 = some (123 / 10) := by norm_num [scaleMask]

example :
    goos_sst_parse ["h".toList, "012\n".toList] "low" = Except.error PyError.valueError := by
  decide

/-- The result of `datetime.strptime(date, "%Y-%m-%d %H:%M")`. -/
structure PyDateTime where
  year : Nat
  month : Nat
  day : Nat
  hour : Nat
  minute : Nat
deriving DecidableEq

/-- Gregorian leap-year rule, as Python's `datetime` applies it. -/
def isLeapYear (y : Nat) : Bool := y % 4 = 0 ∧ (y % 100 ≠ 0 ∨ y % 400 = 0)

/-- Days in a month of the proleptic Gregorian calendar. -/
def daysInMonth (y m : Nat) : Nat :=
  if m = 2 then (if isLeapYear y then 29 else 28)
  else if m = 4 ∨ m = 6 ∨ m = 9 ∨ m = 11 then 30
  else 31

/-- Read two decimal digits from the front of a character list. -/
def readTwoDigits : PyStr → Option (Nat × PyStr)
  | a :: b :: rest => do
    let x ← pyDigit? a
    let y ← pyDigit? b
    pure (x * 10 + y, rest)
  | _ => none

/-- Consume one expected literal character from the front of a list. -/
def expectChar (c : Char) : PyStr → Option PyStr
  | a :: rest => if a = c then some rest else none
  | _ => none

/-- `datetime.strptime(s, "%Y-%m-%d %H:%M")`, restricted to the zero-padded
form of the pattern (4-2-2 2:2 digits); `none` mirrors `ValueError`.
CPython additionally accepts unpadded fields, which this model (and the
spec's literal-pattern contract) excludes. -/
def strptimeYmdHM (s : String) : Option PyDateTime := do
  let (y12, r1) ← readTwoDigits s.toList
  let (y34, r2) ← readTwoDigits r1
  let r3 ← expectChar '-' r2
  let (month, r4) ← readTwoDigits r3
  let r5 ← expectChar '-' r4
  let (day, r6) ← readTwoDigits r5
  let r7 ← expectChar ' ' r6
  let (hour, r8) ← readTwoDigits r7
  let r9 ← expectChar ':' r8
  let (minute, r10) ← readTwoDigits r9
  let year := y12 * 100 + y34
  if r10 = [] ∧ 1 ≤ year ∧ 1 ≤ month ∧ month ≤ 12 ∧ 1 ≤ day ∧
      day ≤ daysInMonth year month ∧ hour ≤ 23 ∧ minute ≤ 59 then
    some ⟨year, month, day, hour, minute⟩
  else none

/-- The decimal digit character for `n % 10`-style values. -/
def digitChar : Nat → Char
  | 0 => '0' | 1 => '1' | 2 => '2' | 3 => '3' | 4 => '4'
  | 5 => '5' | 6 => '6' | 7 => '7' | 8 => '8' | _ => '9'

/-- Two-digit zero-padded decimal rendering (`%m`, `%d`). -/
def pad2 (n : Nat) : PyStr := [digitChar (n / 10 % 10), digitChar (n % 10)]

/-- Four-digit zero-padded decimal rendering (`%Y` for years up to 9999). -/
def pad4 (n : Nat) : PyStr :=
  [digitChar (n / 1000 % 10), digitChar (n / 100 % 10), digitChar (n / 10 % 10),
    digitChar (n % 10)]

/-- `datetime.strftime("%Y%m%d")` on the parsed timestamp. -/
def strftimeYmd (d : PyDateTime) : String :=
  String.mk (pad4 d.year ++ pad2 d.month ++ pad2 d.day)

example : strptimeYmdHM "2022-05-19 12:00" = some ⟨2022, 5, 19, 12, 0⟩ := by decide

example : strptimeYmdHM "2022-02-30 12:00" = none := by decide

example : strptimeYmdHM "not a date" = none := by decide

example : strftimeYmd ⟨2022, 5, 19, 12, 0⟩ = "20220519" := by decide

/-- `ROOT_URL` from the module head. -/
def ROOT_URL : String := "https://www.data.jma.go.jp/gmd/goos/data/pub/JMA-product/"

/-- `_generate_data_info(date, save_path, resolution)`: parse and reformat
the timestamp, then build `(filename, url, data_path)`.  `data_path` is the
plain concatenation `save_path + filename`.  Unknown resolution tags and
unparsable timestamps raise `ValueError`. -/
def _generate_data_info (date save_path resolution : String) :
    Except PyError (String × String × String) :=
  match strptimeYmdHM date with
  | none => Except.error PyError.valueError
  | some dt =>
    let d8 := strftimeYmd dt
    let year4 := String.mk (d8.toList.take 4)
    if resolution = "low" then
      match pyInt (d8.toList.take 4) with
      | none => Except.error PyError.valueError
      | some y =>
        let filename := if 2022 ≤ y then "mgd_sst_glb_D" ++ d8 ++ ".txt.gz"
          else "re_mgd_sst_glb_D" ++ d8 ++ ".txt.gz"
        let url := ROOT_URL ++ "mgd_sst_glb_D/" ++ year4 ++ "/" ++ filename
        Except.ok (filename, url, save_path ++ filename)
    else if resolution = "high" then
      let filename := "him_sst_pac_D" ++ d8 ++ ".txt"
      let url := ROOT_URL ++ "him_sst_pac_D/" ++ year4 ++ "/" ++ filename
      Except.ok (filename, url, save_path ++ filename)
    else Except.error PyError.valueError

example :
    _generate_data_info "2022-05-19 12:00" "data/" "low" =
      Except.ok ("mgd_sst_glb_D20220519.txt.gz",
        "https://www.data.jma.go.jp/gmd/goos/data/pub/JMA-product/mgd_sst_glb_D/2022/mgd_sst_glb_D20220519.txt.gz",
        "data/mgd_sst_glb_D20220519.txt.gz") := by decide

example :
    _generate_data_info "2021-05-19 12:00" "data/" "low" =
      Except.ok ("re_mgd_sst_glb_D20210519.txt.gz",
        "https://www.data.jma.go.jp/gmd/goos/data/pub/JMA-product/mgd_sst_glb_D/2021/re_mgd_sst_glb_D20210519.txt.gz",
        "data/re_mgd_sst_glb_D20210519.txt.gz") := by decide

example :
    _generate_data_info "2024-07-29 00:00" "data/" "high" =
      Except.ok ("him_sst_pac_D20240729.txt",
        "https://www.data.jma.go.jp/gmd/goos/data/pub/JMA-product/him_sst_pac_D/2024/him_sst_pac_D20240729.txt",
        "data/him_sst_pac_D20240729.txt") := by decide

/-- The filesystem state visible to `goos_sst_find_data`: the sets of
existing directories and files, each identified by its path string. -/
structure FS where
  dirs : List String
  files : List String
deriving DecidableEq

/-- `os.path.exists(p)`: true when `p` names an existing directory or file. -/
def pyExists (p : String) (fs : FS) : Bool :=
  fs.dirs.contains p || fs.files.contains p

/-- The save-path normalization at the top of `goos_sst_find_data`:
`if save_path[-1] != '/': save_path += '/'` (callers guarantee a nonempty
path; the empty case is handled separately as `IndexError`). -/
def normPath (p : String) : String :=
  if p.toList.getLast? = some '/' then p else p ++ "/"

/-- `if not exists(save_path): makedirs(save_path)`. -/
def mkdirIfAbsent (p : String) (fs : FS) : FS :=
  if pyExists p fs then fs else { fs with dirs := p :: fs.dirs }

/-- Python `s[:-n]`: drop the last `n` characters (empty result when the
string is no longer than `n`). -/
def pyDropRight (s : String) (n : Nat) : String :=
  String.mk (s.toList.take (s.toList.length - n))

/-- The `logger.warning` message of the 404 branch (apostrophe-free
paraphrase of the source f-string; it names the missing file). -/
def warn404Msg (name : String) : String :=
  "The file " ++ name ++
    " does not exist in server (status 404), following download tasks will be terminated"

/-- The `logger.error` message of the non-200/404 branch; it includes the
status code and the URL attempted. -/
def errDownloadMsg (name : String) (code : Nat) (url : String) : String :=
  "Failed to download file " ++ name ++ ", status code is " ++ toString code ++
    ". May be you can try again later, or check if this url is right: " ++ url

/-- Observable outcome of one `goos_sst_find_data` call: the returned path
(or raised exception), the filesystem afterwards, how many downloader calls
were made, and the warning/error log lines emitted. -/
structure FetchOutcome where
  ret : Except PyError String
  fs : FS
  networkCalls : Nat
  warnings : List String
  errors : List String
deriving DecidableEq

/-- `goos_sst_find_data(date, save_path, resolution, ...)`.

The two collaborators live in `seafog/utils.py`, which is not part of the
sources here. Modelled from the spec: `download_url(url, save_path,
data_name, ...)` is the downloader parameter `dl`, returning an HTTP-style
status code and, on 200, saving `save_path + data_name`;
`decompress_file(path)` decompresses in place, producing a sibling file
with the 3-character compression suffix removed.  The pass-through
transfer options (proxy, headers, progress, callback) do not influence the
modelled observables and are absorbed into `dl`. -/
def goos_sst_find_data (dl : String → String → String → Nat)
    (date save_path resolution : String) (fs0 : FS) : FetchOutcome :=
  if save_path = "" then
    ⟨Except.error PyError.indexError, fs0, 0, [], []⟩
  else
    let sp := normPath save_path
    let fs1 := mkdirIfAbsent sp fs0
    match _generate_data_info date sp resolution with
    | Except.error e => ⟨Except.error e, fs1, 0, [], []⟩
    | Except.ok (data_name, url, data_path) =>
      if pyExists (pyDropRight data_path 3) fs1 then
        ⟨Except.ok (pyDropRight data_path 3), fs1, 0, [], []⟩
      else
        let code := dl url sp data_name
        let fs2 := if code = 200 then
            { fs1 with files := (sp ++ data_name) :: fs1.files }
          else fs1
        if code = 404 then
          ⟨Except.ok "", fs2, 1, [warn404Msg data_name], []⟩
        else if code ≠ 200 then
          ⟨Except.error PyError.connectionError, fs2, 1, [],
            [errDownloadMsg data_name code url]⟩
        else if resolution = "low" then
          ⟨Except.ok (pyDropRight data_path 3),
            { fs2 with files := pyDropRight data_path 3 :: fs2.files }, 1, [], []⟩
        else
          ⟨Except.ok data_path, fs2, 1, [], []⟩

/-- A downloader stub that always reports success. -/
def dl200 : String → String → String → Nat := fun _ _ _ => 200

/-- A downloader stub that always reports a missing remote file. -/
def dl404 : String → String → String → Nat := fun _ _ _ => 404

example :
    goos_sst_find_data dl200 "2022-05-19 12:00" "data/" "low"
        ⟨["data/"], ["data/mgd_sst_glb_D20220519.txt"]⟩ =
      ⟨Except.ok "data/mgd_sst_glb_D20220519.txt",
        ⟨["data/"], ["data/mgd_sst_glb_D20220519.txt"]⟩, 0, [], []⟩ := by decide

example :
    (goos_sst_find_data dl200 "2024-07-29 00:00" "data" "high"
        ⟨["data/"], ["data/him_sst_pac_D20240729.txt"]⟩).networkCalls = 1 := by decide

example :
    (goos_sst_find_data dl404 "2022-05-19 12:00" "data/" "low" ⟨[], []⟩).ret =
      Except.ok "" := by decide

/-- Induction on a list three elements at a time, following the recursion
pattern of `pyIntFields`. -/
theorem threeStepInduction {α : Type} {motive : List α → Prop} (h0 : motive [])
    (h1 : ∀ a, motive [a]) (h2 : ∀ a b, motive [a, b])
    (h3 : ∀ a b c rest, motive rest → motive (a :: b :: c :: rest)) :
    ∀ l, motive l := by
  have H : ∀ n (l : List α), l.length ≤ n → motive l := by
    intro n
    induction n with
    | zero =>
      intro l hl
      rcases l with _ | ⟨a, t⟩
      · exact h0
      · simp at hl
    | succ n ih =>
      intro l hl
      rcases l with _ | ⟨a, _ | ⟨b, _ | ⟨c, rest⟩⟩⟩
      · exact h0
      · exact h1 a
      · exact h2 a b
      · refine h3 a b c rest (ih rest ?_)
        simp only [List.length_cons] at hl
        omega
  intro l
  exact H l.length l le_rfl

theorem pyIntFields_length (l : PyStr) : (pyIntFields l).length = (l.length + 2) / 3 := by
  induction l using threeStepInduction with
  | h0 => rfl
  | h1 a => simp [pyIntFields]
  | h2 a b => simp [pyIntFields]
  | h3 a b c rest ih =>
    simp only [pyIntFields, List.length_cons, ih]
    omega

theorem pyIntFields_getElem (l : PyStr) :
    ∀ (i : Nat) (hi : i < (pyIntFields l).length),
      (pyIntFields l)[i] = pyInt ((l.drop (3 * i)).take 3) := by
  induction l using threeStepInduction with
  | h0 =>
    intro i hi
    simp [pyIntFields] at hi
  | h1 a =>
    intro i hi
    have h0 : i = 0 := by simp [pyIntFields] at hi; omega
    subst h0
    simp [pyIntFields]
  | h2 a b =>
    intro i hi
    have h0 : i = 0 := by simp [pyIntFields] at hi; omega
    subst h0
    simp [pyIntFields]
  | h3 a b c rest ih =>
    intro i hi
    match i with
    | 0 => simp [pyIntFields]
    | j + 1 =>
      have hj : j < (pyIntFields rest).length := by
        simp only [pyIntFields, List.length_cons] at hi
        omega
      simp only [pyIntFields, List.getElem_cons_succ]
      rw [ih j hj]
      congr 1

theorem optSequence_eq_some {α : Type} :
    ∀ (l : List (Option α)) (xs : List α), optSequence l = some xs → l = xs.map some := by
  intro l
  induction l with
  | nil =>
    intro xs h
    cases h
    rfl
  | cons a t ih =>
    intro xs h
    cases a with
    | none => simp [optSequence] at h
    | some v =>
      simp only [optSequence, Option.bind_eq_bind, Option.some_bind, Option.bind_eq_some,
        Option.pure_def, Option.some.injEq] at h
      obtain ⟨rest, hrest, hx⟩ := h
      subst hx
      simp [ih rest hrest]

/-- **C2, counterexample.**  The stripped line `"1234"` has length 4, so the
claimed field count `floor(4 / 3) = 1`; but the source's slice comprehension
produces two integers, parsing the trailing 1-character partial field `"4"`
instead of dropping it. -/
theorem decodeLine_partial_field_counterexample :
    decodeLine ("1234\n".toList) = some [123, 4] ∧
    ("1234\n".toList.dropLast).length / 3 = 1 ∧
    ([123, 4] : List Int).length = 2 := by decide

/-- **C2 (amended).**  Every data line (after `line[:-1]` strips its final
character) decodes into exactly `ceil(length / 3) = (length + 2) / 3`
integers, the `i`-th parsed from the slice `line[3*i : 3*i+3]`; a trailing
partial field of 1 or 2 characters is parsed as a shorter integer rather
than dropped. -/
theorem decodeLine_field_layout (line : PyStr) (xs : List Int)
    (h : decodeLine line = some xs) :
    xs.length = (line.dropLast.length + 2) / 3 ∧
    ∀ (i : Nat) (hi : i < xs.length),
      pyInt ((line.dropLast.drop (3 * i)).take 3) = some (xs.get ⟨i, hi⟩) := by
  have hfld : pyIntFields line.dropLast = xs.map some := optSequence_eq_some _ xs h
  constructor
  · have hl := pyIntFields_length line.dropLast
    rw [hfld] at hl
    simpa using hl
  · intro i hi
    have hlen : i < (pyIntFields line.dropLast).length := by
      rw [hfld]
      simpa using hi
    have hg := pyIntFields_getElem line.dropLast i hlen
    rw [← hg]
    simp [hfld]

/-- Witness for `decodeLine_field_layout` at the concrete line `"1234\n"`. -/
theorem decodeLine_field_layout_witness :
    decodeLine ("1234\n".toList) = some [123, 4] ∧
    ([123, 4] : List Int).length = (("1234\n".toList.dropLast).length + 2) / 3 := by
  have h : decodeLine ("1234\n".toList) = some [123, 4] := by decide
  exact ⟨h, (decodeLine_field_layout _ _ h).1⟩

theorem DataArray.make_ok_inv {name : String} {data : List (List (Option ℚ))}
    {latitude longitude : List ℚ} {units : String} {g : DataArray}
    (h : DataArray.make name data latitude longitude units = Except.ok g) :
    g = ⟨name, data, ["latitude", "longitude"], latitude, longitude, units⟩ ∧
    data.length = latitude.length ∧ ∀ row ∈ data, row.length = longitude.length := by
  unfold DataArray.make at h
  split at h
  · rename_i hc
    cases h
    refine ⟨rfl, hc.1, ?_⟩
    intro row hr
    have hall := hc.2
    simp only [List.all_eq_true, decide_eq_true_eq] at hall
    exact hall row hr
  · cases h

theorem goos_sst_parse_ok_inv (lines : List PyStr) (res : String) (g : DataArray)
    (h : goos_sst_parse lines res = Except.ok g) :
    ∃ rows latitude longitude, decodeFile lines = some rows ∧
      rectangular rows = true ∧ rows ≠ [] ∧ axesFor res = some (latitude, longitude) ∧
      g = ⟨"sst", gridTransform rows, ["latitude", "longitude"], latitude, longitude,
        "degree"⟩ ∧
      (gridTransform rows).length = latitude.length ∧
      ∀ row ∈ gridTransform rows, row.length = longitude.length := by
  unfold goos_sst_parse at h
  split at h
  · cases h
  · rename_i rows hdec
    by_cases hrect : rectangular rows = false
    · rw [if_pos hrect] at h; cases h
    · rw [if_neg hrect] at h
      by_cases hemp : rows.isEmpty = true
      · rw [if_pos hemp] at h; cases h
      · rw [if_neg hemp] at h
        split at h
        · cases h
        · rename_i latitude longitude hax
          obtain ⟨hg, hlen, hrows⟩ := DataArray.make_ok_inv h
          refine ⟨rows, latitude, longitude, hdec, ?_, ?_, hax, hg, hlen, hrows⟩
          · exact Bool.eq_true_of_not_eq_false hrect
          · intro hnil
            subst hnil
            simp at hemp

/-- **C6.**  Sentinel law of the parser's value transformation: raw fields
999 and 888 become not-a-number; every raw field up to 800 is scaled to
exactly `field / 10`; masking hits exactly the scaled values strictly above
80; and every value in a successfully parsed grid is the image of some raw
decoded field under this transformation. -/
theorem scaleMask_sentinel_law :
    scaleMask 999 = none ∧ scaleMask 888 = none ∧
    (∀ n : Nat, n ≤ 800 → scaleMask (n : Int) = some ((n : ℚ) / 10)) ∧
    (∀ v : Int, scaleMask v = none ↔ (80 : ℚ) < (v : ℚ) / 10) ∧
    (∀ (lines : List PyStr) (res : String) (g : DataArray),
      goos_sst_parse lines res = Except.ok g →
      ∀ row ∈ g.data, ∀ v ∈ row, ∃ raw : Int, v = scaleMask raw) := by
  refine ⟨by norm_num [scaleMask], by norm_num [scaleMask], ?_, ?_, ?_⟩
  · intro n hn
    have hle : ((n : ℚ)) / 10 ≤ 80 := by
      rw [div_le_iff₀ (by norm_num : (0 : ℚ) < 10)]
      have : ((n : ℚ)) ≤ 800 := by exact_mod_cast hn
      linarith
    simp only [scaleMask, Int.cast_natCast]
    rw [if_neg (by linarith)]
  · intro v
    unfold scaleMask
    split
    · rename_i hlt
      simpa using hlt
    · rename_i hlt
      simp only [reduceCtorEq, false_iff]
      exact hlt
  · intro lines res g h row hrow v hv
    obtain ⟨rows, lat, lon, _, _, _, _, hg, _, _⟩ := goos_sst_parse_ok_inv _ _ _ h
    subst hg
    simp only [gridTransform, List.mem_reverse, List.mem_map] at hrow
    obtain ⟨r0, _, hr0⟩ := hrow
    subst hr0
    simp only [List.mem_map] at hv
    obtain ⟨raw, _, hraw⟩ := hv
    exact ⟨raw, hraw.symm⟩

/-- Witness for `scaleMask_sentinel_law`: the inner bounded-field law at
the concrete raw field 500. -/
theorem scaleMask_sentinel_law_witness :
    scaleMask ((500 : Nat) : Int) = some ((500 : ℚ) / 10) :=
  scaleMask_sentinel_law.2.2.1 500 (by norm_num)

/-- The grid shape required by each resolution profile: rows x columns. -/
def profileShape (res : String) : Nat × Nat :=
  if res = "low" then (720, 1440) else (600, 800)

theorem gridTransform_length (rows : List (List Int)) :
    (gridTransform rows).length = rows.length := by
  simp [gridTransform]

theorem np_linspace_length (a b : ℚ) (n : Nat) : (np_linspace a b n).length = n := by
  rw [np_linspace, List.length_map, List.length_range]

/-- **C5.**  A decoded grid whose row/column layout does not match the
requested resolution profile's shape makes the parser fail (the spec's
`MalformedGrid`, surfaced as `ValueError`/`IndexError`): it never returns a
mis-shaped grid. -/
theorem goos_sst_parse_shape_guard (lines : List PyStr) (res : String)
    (rows : List (List Int)) (hres : res = "low" ∨ res = "high")
    (hdec : decodeFile lines = some rows)
    (hbad : rows.length ≠ (profileShape res).1 ∨
      ∃ row ∈ rows, row.length ≠ (profileShape res).2) :
    ∃ e, goos_sst_parse lines res = Except.error e := by
  cases hp : goos_sst_parse lines res with
  | error e => exact ⟨e, rfl⟩
  | ok g =>
    exfalso
    obtain ⟨rows2, lat, lon, hdec2, hrect, hne, hax, hg, hlen, hrows⟩ :=
      goos_sst_parse_ok_inv _ _ _ hp
    rw [hdec] at hdec2
    have hre : rows = rows2 := Option.some.inj hdec2
    subst hre
    have hshape : lat.length = (profileShape res).1 ∧ lon.length = (profileShape res).2 := by
      rcases hres with hres | hres
      · subst hres
        have h0 : axesFor "low" = some (np_linspace (-89.875) 89.875 720,
            np_linspace 0.125 359.875 1440) := rfl
        rw [h0] at hax
        injection hax with hpair
        injection hpair with hlat hlon
        subst hlat
        subst hlon
        constructor <;> simp [profileShape, np_linspace_length]
      · subst hres
        have h0 : axesFor "high" = some (np_linspace 0.05 59.95 600,
            np_linspace 100.05 179.95 800) := rfl
        rw [h0] at hax
        injection hax with hpair
        injection hpair with hlat hlon
        subst hlat
        subst hlon
        constructor <;> simp [profileShape, np_linspace_length]
    rcases hbad with hbad | ⟨row, hmem, hbad⟩
    · apply hbad
      rw [← hshape.1, ← hlen, gridTransform_length]
    · apply hbad
      have hmem2 : row.map scaleMask ∈ gridTransform rows := by
        simp only [gridTransform, List.mem_reverse, List.mem_map]
        exact ⟨row, hmem, rfl⟩
      have := hrows _ hmem2
      rw [List.length_map] at this
      rw [this, hshape.2]

/-- Witness for `goos_sst_parse_shape_guard`: a one-line, one-field grid
file is rejected for the 'low' profile. -/
theorem goos_sst_parse_shape_guard_witness :
    ∃ e, goos_sst_parse ["h".toList, "012\n".toList] "low" = Except.error e := by
  refine goos_sst_parse_shape_guard _ _ [[12]] (Or.inl rfl) (by decide) ?_
  left
  decide

theorem np_linspace_getElem (a b : ℚ) (n i : Nat)
    (hi : i < (np_linspace a b n).length) :
    (np_linspace a b n)[i] = a + (b - a) * (i : ℚ) / ((n : ℚ) - 1) := by
  simp [np_linspace]

theorem np_linspace_head (a b : ℚ) (n : Nat) (h : n ≠ 0) :
    (np_linspace a b n).head? = some a := by
  obtain ⟨m, rfl⟩ := Nat.exists_eq_succ_of_ne_zero h
  rw [np_linspace, List.range_succ_eq_map]
  simp

theorem np_linspace_getLast (a b : ℚ) (n : Nat) (h : 2 ≤ n) :
    (np_linspace a b n).getLast? = some b := by
  have hlen : (np_linspace a b n).length = n := np_linspace_length a b n
  have hn1 : n - 1 < n := by omega
  rw [List.getLast?_eq_getElem?, hlen,
    List.getElem?_eq_getElem (by rw [hlen]; exact hn1)]
  rw [np_linspace_getElem a b n (n - 1) (by rw [hlen]; exact hn1)]
  have hcast : ((n - 1 : Nat) : ℚ) = (n : ℚ) - 1 := by
    have : (1 : Nat) ≤ n := by omega
    push_cast [this]
    ring
  have hne : ((n : ℚ) - 1) ≠ 0 := by
    have h2 : (2 : ℚ) ≤ (n : ℚ) := by exact_mod_cast h
    intro hc
    rw [sub_eq_zero] at hc
    rw [hc] at h2
    norm_num at h2
  rw [hcast, mul_div_assoc, div_self hne, mul_one]
  congr 1
  ring

theorem np_linspace_ascending (a b : ℚ) (n : Nat) (hab : a < b) (i : Nat)
    (hi : i + 1 < (np_linspace a b n).length) :
    (np_linspace a b n).get ⟨i, Nat.lt_of_succ_lt hi⟩ <
      (np_linspace a b n).get ⟨i + 1, hi⟩ := by
  simp only [List.get_eq_getElem]
  rw [np_linspace_getElem a b n i (Nat.lt_of_succ_lt hi), np_linspace_getElem a b n (i + 1) hi]
  rw [np_linspace_length] at hi
  have hn2 : 2 ≤ n := by omega
  have hc : (0 : ℚ) < (n : ℚ) - 1 := by
    have : (2 : ℚ) ≤ (n : ℚ) := by exact_mod_cast hn2
    linarith
  have hnum : (b - a) * (i : ℚ) < (b - a) * ((i + 1 : Nat) : ℚ) := by
    apply mul_lt_mul_of_pos_left _ (by linarith : (0 : ℚ) < b - a)
    exact_mod_cast Nat.lt_succ_self i
  have hfin := (div_lt_div_iff_of_pos_right hc).mpr hnum
  linarith

/-- **C7.**  A successfully parsed grid carries the fixed per-resolution
coordinate axes and unit tag: for 'low' an array of shape 720 x 1440 with
latitude ascending from -89.875 to 89.875 (720 points) and longitude from
0.125 to 359.875 (1440 points); for 'high' longitude from 100.05 to 179.95
(800 points) and latitude from 0.05 to 59.95 (600 points); the unit label
is always "degree". -/
theorem goos_sst_parse_axes (lines : List PyStr) (res : String) (g : DataArray)
    (h : goos_sst_parse lines res = Except.ok g) :
    g.units = "degree" ∧
    (res = "low" →
      g.latitude = np_linspace (-89.875) 89.875 720 ∧
      g.longitude = np_linspace 0.125 359.875 1440 ∧
      g.latitude.length = 720 ∧ g.longitude.length = 1440 ∧
      g.latitude.head? = some (-89.875) ∧ g.latitude.getLast? = some 89.875 ∧
      g.longitude.head? = some 0.125 ∧ g.longitude.getLast? = some 359.875 ∧
      g.data.length = 720 ∧ (∀ row ∈ g.data, row.length = 1440) ∧
      ∀ (i : Nat) (hi : i + 1 < g.latitude.length),
        g.latitude.get ⟨i, Nat.lt_of_succ_lt hi⟩ < g.latitude.get ⟨i + 1, hi⟩) ∧
    (res = "high" →
      g.longitude = np_linspace 100.05 179.95 800 ∧
      g.latitude = np_linspace 0.05 59.95 600 ∧
      g.longitude.length = 800 ∧ g.latitude.length = 600 ∧
      g.longitude.head? = some 100.05 ∧ g.longitude.getLast? = some 179.95 ∧
      g.latitude.head? = some 0.05 ∧ g.latitude.getLast? = some 59.95 ∧
      g.data.length = 600 ∧ (∀ row ∈ g.data, row.length = 800) ∧
      ∀ (i : Nat) (hi : i + 1 < g.latitude.length),
        g.latitude.get ⟨i, Nat.lt_of_succ_lt hi⟩ < g.latitude.get ⟨i + 1, hi⟩) := by
  obtain ⟨rows, lat, lon, hdec, hrect, hne, hax, hg, hlen, hrows⟩ :=
    goos_sst_parse_ok_inv _ _ _ h
  subst hg
  refine ⟨rfl, ?_, ?_⟩
  · intro hres
    subst hres
    have h0 : axesFor "low" = some (np_linspace (-89.875) 89.875 720,
        np_linspace 0.125 359.875 1440) := rfl
    rw [h0] at hax
    injection hax with hpair
    injection hpair with hlat hlon
    subst hlat
    subst hlon
    refine ⟨rfl, rfl, np_linspace_length _ _ _, np_linspace_length _ _ _,
      np_linspace_head _ _ _ (by norm_num), np_linspace_getLast _ _ _ (by norm_num),
      np_linspace_head _ _ _ (by norm_num), np_linspace_getLast _ _ _ (by norm_num),
      ?_, ?_, ?_⟩
    · rw [hlen, np_linspace_length]
    · intro row hrow
      have := hrows row hrow
      rw [this, np_linspace_length]
    · intro i hi
      exact np_linspace_ascending _ _ _ (by norm_num) i hi
  · intro hres
    subst hres
    have h0 : axesFor "high" = some (np_linspace 0.05 59.95 600,
        np_linspace 100.05 179.95 800) := rfl
    rw [h0] at hax
    injection hax with hpair
    injection hpair with hlat hlon
    subst hlat
    subst hlon
    refine ⟨rfl, rfl, np_linspace_length _ _ _, np_linspace_length _ _ _,
      np_linspace_head _ _ _ (by norm_num), np_linspace_getLast _ _ _ (by norm_num),
      np_linspace_head _ _ _ (by norm_num), np_linspace_getLast _ _ _ (by norm_num),
      ?_, ?_, ?_⟩
    · rw [hlen, np_linspace_length]
    · intro row hrow
      have := hrows row hrow
      rw [this, np_linspace_length]
    · intro i hi
      exact np_linspace_ascending _ _ _ (by norm_num) i hi

/-- **C8.**  Row 0 of a successfully parsed grid is the (scaled and
sentinel-masked) image of the last decoded data line of the
header-stripped file: the parser reverses the row order. -/
theorem goos_sst_parse_rowflip (lines : List PyStr) (res : String) (g : DataArray)
    (rows : List (List Int)) (hdec : decodeFile lines = some rows)
    (h : goos_sst_parse lines res = Except.ok g) :
    g.data.head? = rows.getLast?.map fun r => r.map scaleMask := by
  obtain ⟨rows2, lat, lon, hdec2, _, _, _, hg, _, _⟩ := goos_sst_parse_ok_inv _ _ _ h
  rw [hdec] at hdec2
  have hre : rows = rows2 := Option.some.inj hdec2
  subst hre
  subst hg
  show (gridTransform rows).head? = _
  rw [gridTransform, List.head?_reverse, List.getLast?_map]

/-- A data line holding `n` zero fields plus its line terminator. -/
def zeroLine (n : Nat) : PyStr := List.replicate (3 * n) '0' ++ ['\n']

/-- A grid file with a header line and `r` rows of `c` zero fields. -/
def mkGridFile (r c : Nat) : List PyStr :=
  "header".toList :: List.replicate r (zeroLine c)

theorem pyIntFields_zeros (n : Nat) :
    pyIntFields (List.replicate (3 * n) '0') = List.replicate n (some (0 : Int)) := by
  induction n with
  | zero => rfl
  | succ k ih =>
    have h3 : 3 * (k + 1) = 3 * k + 1 + 1 + 1 := by ring
    rw [h3, List.replicate_succ, List.replicate_succ, List.replicate_succ]
    show pyIntFields ('0' :: '0' :: '0' :: List.replicate (3 * k) '0') = _
    rw [List.replicate_succ]
    show pyInt ['0', '0', '0'] :: pyIntFields (List.replicate (3 * k) '0') = _
    rw [ih]
    congr 1

theorem optSequence_map_some {α : Type} (xs : List α) :
    optSequence (xs.map some) = some xs := by
  induction xs with
  | nil => rfl
  | cons a t ih =>
    rw [List.map_cons]
    simp [optSequence, ih]

theorem decodeLine_zeroLine (n : Nat) :
    decodeLine (zeroLine n) = some (List.replicate n (0 : Int)) := by
  rw [decodeLine, zeroLine, List.dropLast_concat, pyIntFields_zeros]
  have : List.replicate n (some (0 : Int)) = (List.replicate n (0 : Int)).map some := by
    rw [List.map_replicate]
  rw [this, optSequence_map_some]

theorem optSequence_decodeLine_replicate (r : Nat) (l : PyStr) (v : List Int)
    (h : decodeLine l = some v) :
    optSequence ((List.replicate r l).map decodeLine) = some (List.replicate r v) := by
  rw [List.map_replicate, h]
  have hrep : List.replicate r (some v) = (List.replicate r v).map some := by
    rw [List.map_replicate]
  rw [hrep, optSequence_map_some]

theorem rectangular_replicate (r : Nat) (row : List Int) :
    rectangular (List.replicate r row) = true := by
  cases r with
  | zero => rfl
  | succ k =>
    rw [List.replicate_succ]
    show (List.replicate k row).all (fun x => x.length = row.length) = true
    simp only [List.all_eq_true, decide_eq_true_eq]
    intro x hx
    rw [List.eq_of_mem_replicate hx]

theorem scaleMask_zero : scaleMask 0 = some 0 := by
  norm_num [scaleMask]

theorem gridTransform_replicate_zero (r c : Nat) :
    gridTransform (List.replicate r (List.replicate c (0 : Int))) =
      List.replicate r (List.replicate c (some (0 : ℚ))) := by
  rw [gridTransform, List.map_replicate, List.map_replicate, scaleMask_zero,
    List.reverse_replicate]

/-- Parsing a well-formed all-zero grid file of the profile's shape
succeeds with the all-zero grid. -/
theorem goos_sst_parse_mkGridFile (res : String) (lat lon : List ℚ) (r c : Nat)
    (hax : axesFor res = some (lat, lon)) (hr : r ≠ 0)
    (hlat : lat.length = r) (hlon : lon.length = c) :
    goos_sst_parse (mkGridFile r c) res =
      Except.ok ⟨"sst", List.replicate r (List.replicate c (some (0 : ℚ))),
        ["latitude", "longitude"], lat, lon, "degree"⟩ := by
  have hdec : decodeFile (mkGridFile r c) =
      some (List.replicate r (List.replicate c (0 : Int))) := by
    rw [decodeFile, mkGridFile, List.drop_one, List.tail_cons]
    exact optSequence_decodeLine_replicate r _ _ (decodeLine_zeroLine c)
  have hempty : (List.replicate r (List.replicate c (0 : Int))).isEmpty = false := by
    cases r with
    | zero => exact absurd rfl hr
    | succ k => rw [List.replicate_succ]; rfl
  rw [goos_sst_parse, hdec]
  show (if rectangular (List.replicate r (List.replicate c (0 : Int))) = false then
      Except.error PyError.valueError
    else if (List.replicate r (List.replicate c (0 : Int))).isEmpty = true then
      Except.error PyError.indexError
    else
      match axesFor res with
      | none => Except.error PyError.valueError
      | some (latitude, longitude) =>
        DataArray.make "sst"
          (gridTransform (List.replicate r (List.replicate c (0 : Int))))
          latitude longitude "degree") = _
  rw [rectangular_replicate, if_neg (by decide : ¬(true = false))]
  rw [hempty, if_neg (by decide : ¬(false = true))]
  rw [hax]
  show DataArray.make "sst"
      (gridTransform (List.replicate r (List.replicate c (0 : Int)))) lat lon "degree" = _
  rw [gridTransform_replicate_zero, DataArray.make, if_pos]
  constructor
  · rw [List.length_replicate, hlat]
  · simp only [List.all_eq_true, decide_eq_true_eq]
    intro x hx
    rw [List.eq_of_mem_replicate hx, List.length_replicate, hlon]

/-- The all-zero 'low' grid. -/
def gLow : DataArray :=
  ⟨"sst", List.replicate 720 (List.replicate 1440 (some (0 : ℚ))),
    ["latitude", "longitude"], np_linspace (-89.875) 89.875 720,
    np_linspace 0.125 359.875 1440, "degree"⟩

/-- The all-zero 'high' grid. -/
def gHigh : DataArray :=
  ⟨"sst", List.replicate 600 (List.replicate 800 (some (0 : ℚ))),
    ["latitude", "longitude"], np_linspace 0.05 59.95 600,
    np_linspace 100.05 179.95 800, "degree"⟩

theorem goos_sst_parse_mk_low :
    goos_sst_parse (mkGridFile 720 1440) "low" = Except.ok gLow :=
  goos_sst_parse_mkGridFile "low" _ _ 720 1440 rfl (by norm_num)
    (np_linspace_length _ _ _) (np_linspace_length _ _ _)

theorem goos_sst_parse_mk_high :
    goos_sst_parse (mkGridFile 600 800) "high" = Except.ok gHigh :=
  goos_sst_parse_mkGridFile "high" _ _ 600 800 rfl (by norm_num)
    (np_linspace_length _ _ _) (np_linspace_length _ _ _)

/-- Witness for `goos_sst_parse_axes` at a concrete well-formed 'low' file. -/
theorem goos_sst_parse_axes_witness :
    gLow.units = "degree" ∧ gLow.latitude.head? = some (-89.875) ∧
    gLow.latitude.getLast? = some 89.875 ∧ gLow.data.length = 720 := by
  have h := goos_sst_parse_axes (mkGridFile 720 1440) "low" gLow goos_sst_parse_mk_low
  obtain ⟨hu, hlow, _⟩ := h
  obtain ⟨_, _, _, _, h5, h6, _, _, h9, _⟩ := hlow rfl
  exact ⟨hu, h5, h6, h9⟩

/-- Witness for `goos_sst_parse_rowflip` at a concrete well-formed 'high'
file: row 0 is the transformed image of the last data line. -/
theorem goos_sst_parse_rowflip_witness :
    gHigh.data.head? =
      (List.replicate 600 (List.replicate 800 (0 : Int))).getLast?.map
        fun r => r.map scaleMask := by
  have hdec : decodeFile (mkGridFile 600 800) =
      some (List.replicate 600 (List.replicate 800 (0 : Int))) := by
    rw [decodeFile, mkGridFile, List.drop_one, List.tail_cons]
    exact optSequence_decodeLine_replicate 600 _ _ (decodeLine_zeroLine 800)
  exact goos_sst_parse_rowflip (mkGridFile 600 800) "high" gHigh _ hdec
    goos_sst_parse_mk_high

theorem pyDigit?_le (c : Char) (d : Nat) (h : pyDigit? c = some d) : d ≤ 9 := by
  unfold pyDigit? at h
  split at h
  · rename_i hc
    cases h
    omega
  · cases h

theorem readTwoDigits_le (l : PyStr) (v : Nat) (r : PyStr)
    (h : readTwoDigits l = some (v, r)) : v ≤ 99 := by
  match l with
  | [] => cases h
  | [a] => cases h
  | a :: b :: rest =>
    simp only [readTwoDigits, Option.bind_eq_bind, Option.bind_eq_some, Option.pure_def,
      Option.some.injEq] at h
    obtain ⟨x, hx, y, hy, hv⟩ := h
    have h1 := pyDigit?_le a x hx
    have h2 := pyDigit?_le b y hy
    cases hv
    omega

theorem strptime_year_bounds (s : String) (dt : PyDateTime)
    (h : strptimeYmdHM s = some dt) : 1 ≤ dt.year ∧ dt.year ≤ 9999 := by
  unfold strptimeYmdHM at h
  simp only [Option.bind_eq_bind, Option.bind_eq_some] at h
  obtain ⟨⟨y12, r1⟩, hy12, ⟨y34, r2⟩, hy34, r3, hr3, ⟨month, r4⟩, hm, r5, hr5,
    ⟨day, r6⟩, hd, r7, hr7, ⟨hour, r8⟩, hh, r9, hr9, ⟨minute, r10⟩, hmin, hfin⟩ := h
  have b12 := readTwoDigits_le _ _ _ hy12
  have b34 := readTwoDigits_le _ _ _ hy34
  split at hfin
  · rename_i hcond
    cases hfin
    refine ⟨hcond.2.1, ?_⟩
    show y12 * 100 + y34 ≤ 9999
    omega
  · cases hfin

theorem digitChar_cases (d : Nat) :
    digitChar d = '0' ∨ digitChar d = '1' ∨ digitChar d = '2' ∨ digitChar d = '3' ∨
    digitChar d = '4' ∨ digitChar d = '5' ∨ digitChar d = '6' ∨ digitChar d = '7' ∨
    digitChar d = '8' ∨ digitChar d = '9' := by
  rcases d with _ | _ | _ | _ | _ | _ | _ | _ | _ | d <;> simp [digitChar]

theorem pySpace_digitChar (d : Nat) : pySpace (digitChar d) = false := by
  rcases digitChar_cases d with h | h | h | h | h | h | h | h | h | h <;>
    rw [h] <;> decide

theorem digitChar_ne_dash (d : Nat) : (digitChar d = '-') = False := by
  rcases digitChar_cases d with h | h | h | h | h | h | h | h | h | h <;>
    rw [h] <;> simp

theorem digitChar_ne_plus (d : Nat) : (digitChar d = '+') = False := by
  rcases digitChar_cases d with h | h | h | h | h | h | h | h | h | h <;>
    rw [h] <;> simp

theorem pyDigit?_digitChar (d : Nat) (h : d ≤ 9) : pyDigit? (digitChar d) = some d := by
  interval_cases d <;> decide

theorem pyStrip_pad4 (y : Nat) : pyStrip (pad4 y) = pad4 y := by
  rw [pad4, pyStrip]
  rw [List.dropWhile_cons_of_neg (by rw [pySpace_digitChar]; exact Bool.false_ne_true)]
  show ([digitChar (y / 1000 % 10), digitChar (y / 100 % 10), digitChar (y / 10 % 10),
    digitChar (y % 10)].reverse.dropWhile pySpace).reverse = _
  rw [show ([digitChar (y / 1000 % 10), digitChar (y / 100 % 10), digitChar (y / 10 % 10),
    digitChar (y % 10)] : PyStr).reverse = [digitChar (y % 10), digitChar (y / 10 % 10),
    digitChar (y / 100 % 10), digitChar (y / 1000 % 10)] from by simp]
  rw [List.dropWhile_cons_of_neg (by rw [pySpace_digitChar]; exact Bool.false_ne_true)]
  simp

theorem pyInt_pad4 (y : Nat) (h : y ≤ 9999) : pyInt (pad4 y) = some (y : Int) := by
  have hd1 : y / 1000 % 10 ≤ 9 := by omega
  have hd2 : y / 100 % 10 ≤ 9 := by omega
  have hd3 : y / 10 % 10 ≤ 9 := by omega
  have hd4 : y % 10 ≤ 9 := by omega
  rw [pyInt]
  simp only [pyStrip_pad4]
  rw [pad4]
  simp only [List.head?_cons, Option.some.injEq, digitChar_ne_dash, digitChar_ne_plus,
    if_false]
  show (pyDigitsVal [digitChar (y / 1000 % 10), digitChar (y / 100 % 10),
    digitChar (y / 10 % 10), digitChar (y % 10)]).map (fun n => (n : Int)) = some (y : Int)
  rw [pyDigitsVal]
  simp only [List.foldlM, Option.bind_eq_bind, pyDigit?_digitChar _ hd1,
    pyDigit?_digitChar _ hd2, pyDigit?_digitChar _ hd3, pyDigit?_digitChar _ hd4,
    Option.map_some, Option.some_bind, Option.pure_def]
  have hy : ((0 * 10 + y / 1000 % 10) * 10 + y / 100 % 10) * 10 + y / 10 % 10 = y / 10 := by
    omega
  have hy2 : (((0 * 10 + y / 1000 % 10) * 10 + y / 100 % 10) * 10 + y / 10 % 10) * 10 +
      y % 10 = y := by
    omega
  simp
  omega

theorem strftimeYmd_take4 (dt : PyDateTime) :
    (strftimeYmd dt).toList.take 4 = pad4 dt.year := rfl

/-- **C3.**  For every valid timestamp with resolution 'low', the resolver
uses the non-reanalyzed template `mgd_sst_glb_D<YYYYMMDD>.txt.gz` when the
year is at least 2022 and the reanalyzed `re_`-prefixed template when the
year is below 2022. -/
theorem generate_low_year_branch (date sp : String) (dt : PyDateTime)
    (h : strptimeYmdHM date = some dt) :
    (2022 ≤ dt.year →
      _generate_data_info date sp "low" = Except.ok
        ("mgd_sst_glb_D" ++ strftimeYmd dt ++ ".txt.gz",
          ROOT_URL ++ "mgd_sst_glb_D/" ++ String.mk (pad4 dt.year) ++ "/" ++
            ("mgd_sst_glb_D" ++ strftimeYmd dt ++ ".txt.gz"),
          sp ++ ("mgd_sst_glb_D" ++ strftimeYmd dt ++ ".txt.gz"))) ∧
    (dt.year < 2022 →
      _generate_data_info date sp "low" = Except.ok
        ("re_mgd_sst_glb_D" ++ strftimeYmd dt ++ ".txt.gz",
          ROOT_URL ++ "mgd_sst_glb_D/" ++ String.mk (pad4 dt.year) ++ "/" ++
            ("re_mgd_sst_glb_D" ++ strftimeYmd dt ++ ".txt.gz"),
          sp ++ ("re_mgd_sst_glb_D" ++ strftimeYmd dt ++ ".txt.gz"))) := by
  obtain ⟨hy1, hy9999⟩ := strptime_year_bounds date dt h
  have hint : pyInt (pad4 dt.year) = some (dt.year : Int) := pyInt_pad4 dt.year hy9999
  constructor
  · intro hge
    simp only [_generate_data_info, h, strftimeYmd_take4, hint, if_true, ite_true,
      eq_self_iff_true]
    rw [if_pos (show (2022 : Int) ≤ (dt.year : Int) from by exact_mod_cast hge)]
  · intro hlt
    simp only [_generate_data_info, h, strftimeYmd_take4, hint, if_true, ite_true,
      eq_self_iff_true]
    rw [if_neg (show ¬(2022 : Int) ≤ (dt.year : Int) from by
      intro hc
      have : 2022 ≤ dt.year := by exact_mod_cast hc
      omega)]

/-- Witness for `generate_low_year_branch`: the two example timestamps of
the claim. -/
theorem generate_low_year_branch_witness :
    _generate_data_info "2022-05-19 12:00" "data/" "low" =
      Except.ok ("mgd_sst_glb_D20220519.txt.gz",
        "https://www.data.jma.go.jp/gmd/goos/data/pub/JMA-product/mgd_sst_glb_D/2022/mgd_sst_glb_D20220519.txt.gz",
        "data/mgd_sst_glb_D20220519.txt.gz") ∧
    _generate_data_info "2021-05-19 12:00" "data/" "low" =
      Except.ok ("re_mgd_sst_glb_D20210519.txt.gz",
        "https://www.data.jma.go.jp/gmd/goos/data/pub/JMA-product/mgd_sst_glb_D/2021/re_mgd_sst_glb_D20210519.txt.gz",
        "data/re_mgd_sst_glb_D20210519.txt.gz") := by
  constructor
  · have h := (generate_low_year_branch "2022-05-19 12:00" "data/" ⟨2022, 5, 19, 12, 0⟩
      (by decide)).1 (by norm_num)
    rw [h]
    decide
  · have h := (generate_low_year_branch "2021-05-19 12:00" "data/" ⟨2021, 5, 19, 12, 0⟩
      (by decide)).2 (by norm_num)
    rw [h]
    decide

/-- **C9, counterexample.**  `_generate_data_info` does not normalize the
base directory: with `save_path = "data"` (no trailing separator) the
returned local path is the plain concatenation `datahim_sst_pac_D...txt`,
not `data/him_sst_pac_D...txt`.  (The trailing-separator normalization
happens in `goos_sst_find_data`, before this function is called.) -/
theorem generate_path_counterexample :
    _generate_data_info "2024-07-29 00:00" "data" "high" =
      Except.ok ("him_sst_pac_D20240729.txt",
        "https://www.data.jma.go.jp/gmd/goos/data/pub/JMA-product/him_sst_pac_D/2024/him_sst_pac_D20240729.txt",
        "datahim_sst_pac_D20240729.txt") ∧
    "datahim_sst_pac_D20240729.txt" ≠ "data/him_sst_pac_D20240729.txt" := by decide

/-- **C9 (amended).**  `_generate_data_info` is a pure function (no
filesystem access) and returns `localPath = baseDir ++ filename` verbatim,
with no separator normalization; for the resolution tag 'high' the filename
is `him_sst_pac_D<YYYYMMDD>.txt`. -/
theorem generate_high_info (date sp : String) (dt : PyDateTime)
    (h : strptimeYmdHM date = some dt) :
    _generate_data_info date sp "high" = Except.ok
      ("him_sst_pac_D" ++ strftimeYmd dt ++ ".txt",
        ROOT_URL ++ "him_sst_pac_D/" ++ String.mk (pad4 dt.year) ++ "/" ++
          ("him_sst_pac_D" ++ strftimeYmd dt ++ ".txt"),
        sp ++ ("him_sst_pac_D" ++ strftimeYmd dt ++ ".txt")) := by
  simp only [_generate_data_info, h, strftimeYmd_take4]
  rfl

/-- Witness for `generate_high_info`: the claim's example, with the
already-normalized base directory "data/". -/
theorem generate_high_info_witness :
    _generate_data_info "2024-07-29 00:00" "data/" "high" =
      Except.ok ("him_sst_pac_D20240729.txt",
        "https://www.data.jma.go.jp/gmd/goos/data/pub/JMA-product/him_sst_pac_D/2024/him_sst_pac_D20240729.txt",
        "data/him_sst_pac_D20240729.txt") := by
  have h := generate_high_info "2024-07-29 00:00" "data/" ⟨2024, 7, 29, 0, 0⟩ (by decide)
  rw [h]
  decide

/-- **C4.**  When the downloader returns 404, `goos_sst_find_data` returns
the empty string, emits exactly one warning naming the missing file, and
raises no exception; for any status other than 200 and 404 it raises
`ConnectionError` (the spec's `TransferFailed`) after logging one error
that includes the code and the URL. -/
theorem find_data_status_codes (dl : String → String → String → Nat)
    (date sp res : String) (fs0 : FS) (data_name url data_path : String)
    (hsp : sp ≠ "") (hnorm : normPath sp = sp)
    (hinfo : _generate_data_info date sp res = Except.ok (data_name, url, data_path))
    (hmiss : pyExists (pyDropRight data_path 3) (mkdirIfAbsent sp fs0) = false) :
    (dl url sp data_name = 404 →
      goos_sst_find_data dl date sp res fs0 =
        ⟨Except.ok "", mkdirIfAbsent sp fs0, 1, [warn404Msg data_name], []⟩) ∧
    (∀ c : Nat, dl url sp data_name = c → c ≠ 200 → c ≠ 404 →
      goos_sst_find_data dl date sp res fs0 =
        ⟨Except.error PyError.connectionError, mkdirIfAbsent sp fs0, 1, [],
          [errDownloadMsg data_name c url]⟩) := by
  constructor
  · intro hdl
    rw [goos_sst_find_data, if_neg hsp]
    simp only [hnorm, hinfo, hmiss, hdl, Bool.false_eq_true, if_false]
    norm_num
  · intro c hdl hc200 hc404
    rw [goos_sst_find_data, if_neg hsp]
    simp only [hnorm, hinfo, hmiss, hdl, Bool.false_eq_true, if_false]
    rw [if_neg hc200, if_neg hc404, if_pos hc200]

/-- Witness for `find_data_status_codes`: a 404 stub on a fresh directory
returns the empty string with exactly one warning. -/
theorem find_data_status_codes_witness :
    goos_sst_find_data dl404 "2022-05-19 12:00" "data/" "low" ⟨[], []⟩ =
      ⟨Except.ok "", mkdirIfAbsent "data/" ⟨[], []⟩, 1,
        [warn404Msg "mgd_sst_glb_D20220519.txt.gz"], []⟩ :=
  (find_data_status_codes dl404 "2022-05-19 12:00" "data/" "low" ⟨[], []⟩
    "mgd_sst_glb_D20220519.txt.gz"
    "https://www.data.jma.go.jp/gmd/goos/data/pub/JMA-product/mgd_sst_glb_D/2022/mgd_sst_glb_D20220519.txt.gz"
    "data/mgd_sst_glb_D20220519.txt.gz"
    (by decide) (by decide) (by decide) (by decide)).1 rfl

/-- **C1, counterexample.**  For the 'high' resolution the final artifact
`data/him_sst_pac_D20240729.txt` already exists locally (there is no
compression suffix to strip), yet a repeated call still performs one
network call: the cache check tests `data_path[:-3]`, i.e.
`data/him_sst_pac_D20240729.` — a name that never exists — so the
idempotence claim fails for 'high'. -/
theorem find_data_cache_counterexample :
    ("data/him_sst_pac_D20240729.txt" ∈
      (FS.mk ["data/"] ["data/him_sst_pac_D20240729.txt"]).files) ∧
    (goos_sst_find_data dl200 "2024-07-29 00:00" "data" "high"
        ⟨["data/"], ["data/him_sst_pac_D20240729.txt"]⟩).ret =
      Except.ok "data/him_sst_pac_D20240729.txt" ∧
    (goos_sst_find_data dl200 "2024-07-29 00:00" "data" "high"
        ⟨["data/"], ["data/him_sst_pac_D20240729.txt"]⟩).networkCalls = 1 := by
  decide

/-- **C1 (amended).**  For 'low' the claim holds: when the decompressed
artifact (`data_path[:-3]`) exists, a repeated call makes zero network
calls and returns that same path.  For 'high' the cache check tests
`data_path[:-3]`, which strips the last three characters of `...txt` and
never names the downloaded artifact, so a repeated call downloads again
(one network call), returning the same path when the downloader reports
200. -/
theorem find_data_cache_idempotence (dl : String → String → String → Nat)
    (date sp : String) (fs0 : FS) (hsp : sp ≠ "") (hnorm : normPath sp = sp) :
    (∀ data_name url data_path : String,
      _generate_data_info date sp "low" = Except.ok (data_name, url, data_path) →
      pyExists (pyDropRight data_path 3) (mkdirIfAbsent sp fs0) = true →
      goos_sst_find_data dl date sp "low" fs0 =
        ⟨Except.ok (pyDropRight data_path 3), mkdirIfAbsent sp fs0, 0, [], []⟩) ∧
    (∀ data_name url data_path : String,
      _generate_data_info date sp "low" = Except.ok (data_name, url, data_path) →
      pyExists (pyDropRight data_path 3) (mkdirIfAbsent sp fs0) = false →
      dl url sp data_name = 200 →
      goos_sst_find_data dl date sp "low" fs0 =
        ⟨Except.ok (pyDropRight data_path 3),
          ⟨(mkdirIfAbsent sp fs0).dirs,
            pyDropRight data_path 3 :: (sp ++ data_name) :: (mkdirIfAbsent sp fs0).files⟩,
          1, [], []⟩) ∧
    (∀ data_name url data_path : String,
      _generate_data_info date sp "high" = Except.ok (data_name, url, data_path) →
      data_path ∈ fs0.files →
      pyExists (pyDropRight data_path 3) (mkdirIfAbsent sp fs0) = false →
      dl url sp data_name = 200 →
      (goos_sst_find_data dl date sp "high" fs0).networkCalls = 1 ∧
      (goos_sst_find_data dl date sp "high" fs0).ret = Except.ok data_path) := by
  refine ⟨?_, ?_, ?_⟩
  · intro data_name url data_path hinfo hhit
    rw [goos_sst_find_data, if_neg hsp]
    simp only [hnorm, hinfo, hhit, if_true, ite_true]
  · intro data_name url data_path hinfo hmiss hdl
    rw [goos_sst_find_data, if_neg hsp]
    simp only [hnorm, hinfo, hmiss, hdl, Bool.false_eq_true, if_false]
    norm_num
  · intro data_name url data_path hinfo hfile hmiss hdl
    rw [goos_sst_find_data, if_neg hsp]
    simp only [hnorm, hinfo, hmiss, hdl, Bool.false_eq_true, if_false]
    norm_num
    simp only [if_neg (show ¬("high" = "low") from by decide)]
    trivial

/-- Witness for `find_data_cache_idempotence`: for 'low', with the
decompressed artifact already present, a repeated call performs zero
network calls and returns the cached path. -/
theorem find_data_cache_idempotence_witness :
    goos_sst_find_data dl200 "2022-05-19 12:00" "data/" "low"
        ⟨["data/"], ["data/mgd_sst_glb_D20220519.txt"]⟩ =
      ⟨Except.ok "data/mgd_sst_glb_D20220519.txt",
        ⟨["data/"], ["data/mgd_sst_glb_D20220519.txt"]⟩, 0, [], []⟩ := by
  have h := (find_data_cache_idempotence dl200 "2022-05-19 12:00" "data/"
      ⟨["data/"], ["data/mgd_sst_glb_D20220519.txt"]⟩ (by decide) (by decide)).1
    "mgd_sst_glb_D20220519.txt.gz"
    "https://www.data.jma.go.jp/gmd/goos/data/pub/JMA-product/mgd_sst_glb_D/2022/mgd_sst_glb_D20220519.txt.gz"
    "data/mgd_sst_glb_D20220519.txt.gz" (by decide) (by decide)
  rw [h]
  decide
